import Mathlib

/-!
Verification of the MWA archive_stats reporting pipeline.

This file gives a shallow embedding of the computational core of the
repository (stats.py in both variants, and volume_per_sci_plots.py):
unit conversions, duty-cycle and calendar arithmetic, the monthly
archive-volume series with deleted-data correction, the per-bucket
inventory call, the bucket classifier, the location-summary defaulting,
the CSV stats dump, and the science-theme categorisation.  Machine
floats are modelled by exact rationals; fallible Python code is
modelled with Except.
-/

namespace ArchiveStats

/-! ### Unit conversions (stats.py: bytes_to_terabytes / bytes_to_petabytes)

Python passes either a numeric value or None; we model the argument as
an Option over exact rationals. -/

/-- Embedding of `bytes_to_terabytes`: None maps to 0.0, otherwise divide
by 1000^4. -/
def bytes_to_terabytes : Option ℚ → ℚ
  | none => 0
  | some v => v / (1000 * 1000 * 1000 * 1000)

/-- Embedding of `bytes_to_petabytes`: None maps to 0.0, otherwise divide
by 1000^5. -/
def bytes_to_petabytes : Option ℚ → ℚ
  | none => 0
  | some v => v / (1000 * 1000 * 1000 * 1000 * 1000)

/-! ### Duty cycle and available hours (stats.py: get_duty_cycle,
get_available_hours)

`get_available_hours` builds two Python `datetime` values (the first of
the month and the first of the next month) and divides the difference in
seconds by 3600.  We embed Python's proleptic-Gregorian ordinal
(`datetime.toordinal`): days-before-year from the leap rule, plus
days-before-month, plus the day. -/

/-- Embedding of `get_duty_cycle`. -/
def get_duty_cycle (hours available_hours : ℚ) : ℚ :=
  if available_hours > 0 then hours / available_hours else 0

/-- Gregorian leap-year rule used by Python's datetime. -/
def isLeap (y : ℕ) : Bool :=
  y % 4 == 0 && (y % 100 != 0 || y % 400 == 0)

/-- Length of calendar month m of year y (1-based months). -/
def daysInMonth (y m : ℕ) : ℕ :=
  if m = 2 then (if isLeap y then 29 else 28)
  else if m = 4 ∨ m = 6 ∨ m = 9 ∨ m = 11 then 30
  else 31

/-- Days in all years strictly before year y (datetime's _days_before_year). -/
def daysBeforeYear (y : ℕ) : ℕ :=
  let k := y - 1
  k * 365 + k / 4 - k / 100 + k / 400

/-- Days in year y strictly before month m (datetime's _days_before_month:
a cumulative table plus a leap-day adjustment after February). -/
def daysBeforeMonth (y m : ℕ) : ℕ :=
  [0, 0, 31, 59, 90, 120, 151, 181, 212, 243, 273, 304, 334].getD m 0 +
    (if 2 < m ∧ isLeap y then 1 else 0)

/-- Proleptic-Gregorian ordinal of a date (datetime.toordinal). -/
def toordinal (y m d : ℕ) : ℕ :=
  daysBeforeYear y + daysBeforeMonth y m + d

/-- Embedding of `get_available_hours`: the difference between the first
of the next month and the first of this month, in seconds, divided
by 3600. -/
def get_available_hours (y m : ℕ) : ℚ :=
  let y2 := if m + 1 = 13 then y + 1 else y
  let m2 := if m + 1 = 13 then 1 else m + 1
  (((toordinal y2 m2 1 : ℤ) - (toordinal y m 1 : ℤ)) * 86400 : ℚ) / 3600

theorem daysBeforeYear_succ (k : ℕ) :
    daysBeforeYear (k + 2) =
      daysBeforeYear (k + 1) + 365 + (if isLeap (k + 1) then 1 else 0) := by
  have h4 := Nat.succ_div k 4
  have h100 := Nat.succ_div k 100
  have h400 := Nat.succ_div k 400
  simp only [Nat.dvd_iff_mod_eq_zero] at h4 h100 h400
  simp only [daysBeforeYear, Nat.add_sub_cancel, isLeap,
    show k + 2 - 1 = k + 1 from rfl, h4, h100, h400,
    Bool.and_eq_true, Bool.or_eq_true, beq_iff_eq, bne_iff_ne]
  split_ifs <;> omega

theorem get_available_hours_eq (y m : ℕ) (hy : 1 ≤ y) (hm1 : 1 ≤ m)
    (hm2 : m ≤ 12) :
    get_available_hours y m = (daysInMonth y m : ℚ) * 24 := by
  obtain ⟨k, rfl⟩ : ∃ k, y = k + 1 := ⟨y - 1, by omega⟩
  have hdby := daysBeforeYear_succ k
  interval_cases m <;>
    rcases h : isLeap (k + 1) <;>
      simp [get_available_hours, toordinal, daysBeforeMonth, daysInMonth, hdby, h] <;>
        push_cast <;> ring_nf <;> norm_num

/-! ### Monthly archive-volume series (stats.py:
do_plot_archive_volume_per_month, get_deleted_data_by_month)

The TAP query returns one row per (year, month) with
SUM(total_archived_bytes + files_deleted_bytes); the deleted-data query
returns one row per deletion (year, month) with SUM(size).  The loop
keeps a running cumulative total, subtracts same-month deletions from
both the month value and the running total, and emits a point only when
the month number is divisible by the stride. -/

/-- Row of the gross-ingest query (reporting_year, reporting_month,
total_data_bytes). -/
structure ObsRow where
  year : ℤ
  month : ℤ
  bytes : ℤ
deriving DecidableEq, Repr

/-- Row of the deleted-data-by-month query (reporting_year,
reporting_month, deleted_bytes). -/
structure DelRow where
  year : ℤ
  month : ℤ
  bytes : ℤ
deriving DecidableEq, Repr

/-- One iteration's state after the deletion correction: identifying
month, the corrected month volume (volume_bytes) and the running
cumulative total (cumulative_volume_bytes). -/
structure MonthEntry where
  year : ℤ
  month : ℤ
  net : ℤ
  cum : ℤ
deriving DecidableEq, Repr

/-- Embedding of the inner `for drow in deleted_results` loop: each row
with matching year and month is subtracted from both the month total and
the cumulative total. -/
def applyDeletions (row : ObsRow) : List DelRow → ℤ → ℤ → ℤ × ℤ
  | [], thisBytes, cum => (thisBytes, cum)
  | d :: rest, thisBytes, cum =>
    if row.year = d.year ∧ row.month = d.month then
      applyDeletions row rest (thisBytes - d.bytes) (cum - d.bytes)
    else
      applyDeletions row rest thisBytes cum

/-- Total bytes the deletion query reports for month (y, m). -/
def deletedInMonth (y m : ℤ) (drows : List DelRow) : ℤ :=
  ((drows.filter (fun d => decide (y = d.year ∧ m = d.month))).map DelRow.bytes).sum

/-- Embedding of the main `for row in results` loop of
do_plot_archive_volume_per_month, recording for every month the
corrected volume and the running cumulative total after the correction. -/
def volumeTraceAux (ingestOnly : Bool) (drows : List DelRow) : ℤ → List ObsRow → List MonthEntry
  | _, [] => []
  | cum, r :: rs =>
    let p := if ingestOnly then (r.bytes, cum + r.bytes)
             else applyDeletions r drows r.bytes (cum + r.bytes)
    ⟨r.year, r.month, p.1, p.2⟩ :: volumeTraceAux ingestOnly drows p.2 rs

/-- The month-by-month trace starting from a cumulative total of 0. -/
def volumeTrace (ingestOnly : Bool) (drows : List DelRow) (rows : List ObsRow) : List MonthEntry :=
  volumeTraceAux ingestOnly drows 0 rows

/-- Embedding of the emitted x/y series of do_plot_archive_volume_per_month
(y values in raw bytes; the code converts each appended value with
bytes_to_terabytes).  A point is appended only when reporting_month is
divisible by the stride; the y value is the running cumulative total
when `cumulative` is set, and the corrected month volume otherwise. -/
def doPlotSeriesAux (ingestOnly cumulative : Bool) (stride : ℤ) (drows : List DelRow) :
    ℤ → List ObsRow → List ((ℤ × ℤ) × ℤ)
  | _, [] => []
  | cum, r :: rs =>
    let p := if ingestOnly then (r.bytes, cum + r.bytes)
             else applyDeletions r drows r.bytes (cum + r.bytes)
    (if r.month % stride = 0 then
      [((r.year, r.month), if cumulative then p.2 else p.1)]
    else []) ++ doPlotSeriesAux ingestOnly cumulative stride drows p.2 rs

/-- The emitted series starting from a cumulative total of 0. -/
def doPlotSeries (ingestOnly cumulative : Bool) (stride : ℤ) (drows : List DelRow)
    (rows : List ObsRow) : List ((ℤ × ℤ) × ℤ) :=
  doPlotSeriesAux ingestOnly cumulative stride drows 0 rows

/-- Embedding of the stride choice: 3 months when the requested range is
longer than 6*31 = 186 days, 1 month otherwise. -/
def stride_months (days : ℤ) : ℤ :=
  if days > 6 * 31 then 3 else 1

theorem applyDeletions_eq (row : ObsRow) (drows : List DelRow) (t c : ℤ) :
    applyDeletions row drows t c =
      (t - deletedInMonth row.year row.month drows,
       c - deletedInMonth row.year row.month drows) := by
  induction drows generalizing t c with
  | nil => simp [applyDeletions, deletedInMonth]
  | cons d rest ih =>
    by_cases h : row.year = d.year ∧ row.month = d.month <;>
      simp [applyDeletions, deletedInMonth, h, ih, List.filter, Prod.ext_iff] <;> omega

theorem volumeTraceAux_cons (drows : List DelRow) (c : ℤ) (r : ObsRow) (rs : List ObsRow) :
    volumeTraceAux false drows c (r :: rs) =
      ⟨r.year, r.month, r.bytes - deletedInMonth r.year r.month drows,
        c + r.bytes - deletedInMonth r.year r.month drows⟩ ::
      volumeTraceAux false drows (c + r.bytes - deletedInMonth r.year r.month drows) rs := by
  simp [volumeTraceAux, applyDeletions_eq]

theorem volumeTraceAux_length (io : Bool) (drows : List DelRow) (c : ℤ) (rows : List ObsRow) :
    (volumeTraceAux io drows c rows).length = rows.length := by
  induction rows generalizing c with
  | nil => rfl
  | cons r rs ih => simp [volumeTraceAux, ih]

theorem doPlotSeriesAux_eq_filter (stride : ℤ) (drows : List DelRow) (c : ℤ)
    (rows : List ObsRow) :
    doPlotSeriesAux false true stride drows c rows =
      ((volumeTraceAux false drows c rows).filter
        (fun e => decide (e.month % stride = 0))).map
          (fun e => ((e.year, e.month), e.cum)) := by
  induction rows generalizing c with
  | nil => rfl
  | cons r rs ih =>
    rcases Decidable.em (stride ∣ r.month) with h | h
    · simp [doPlotSeriesAux, volumeTraceAux, ih, Int.emod_eq_zero_of_dvd h, h]
    · have h2 : ¬r.month % stride = 0 := fun hh => h (Int.dvd_of_emod_eq_zero hh)
      simp [doPlotSeriesAux, volumeTraceAux, ih, h2, h]

theorem doPlotSeriesAux_keys (io cumu : Bool) (stride : ℤ) (drows : List DelRow)
    (rows : List ObsRow) :
    ∀ c : ℤ,
      (doPlotSeriesAux io cumu stride drows c rows).map Prod.fst =
        (rows.filter (fun r => decide (r.month % stride = 0))).map
          (fun r => (r.year, r.month)) := by
  induction rows with
  | nil => intro c; rfl
  | cons r rs ih =>
    intro c
    rcases Decidable.em (stride ∣ r.month) with h | h
    · simp [doPlotSeriesAux, ih, Int.emod_eq_zero_of_dvd h, h]
    · have h2 : ¬r.month % stride = 0 := fun hh => h (Int.dvd_of_emod_eq_zero hh)
      simp [doPlotSeriesAux, ih, h2, h]

theorem volumeTraceAux_get_net (drows : List DelRow) (rows : List ObsRow) :
    ∀ (c : ℤ) (i : ℕ) (e : MonthEntry) (r : ObsRow),
      (volumeTraceAux false drows c rows).get? i = some e → rows.get? i = some r →
      e.net = r.bytes - deletedInMonth r.year r.month drows := by
  induction rows with
  | nil => intro c i e r he hr; simp at hr
  | cons a rs ih =>
    intro c i e r he hr
    rw [volumeTraceAux_cons] at he
    cases i with
    | zero =>
      simp only [List.get?_cons_zero, Option.some.injEq] at he hr
      subst he; subst hr; rfl
    | succ j =>
      simp only [List.get?_cons_succ] at he hr
      exact ih _ j e r he hr

theorem volumeTraceAux_get_cum_zero (drows : List DelRow) (rows : List ObsRow) (c : ℤ)
    (e : MonthEntry) (he : (volumeTraceAux false drows c rows).get? 0 = some e) :
    e.cum = c + e.net := by
  cases rows with
  | nil => simp [volumeTraceAux] at he
  | cons r rs =>
    rw [volumeTraceAux_cons] at he
    simp only [List.get?_cons_zero, Option.some.injEq] at he
    subst he
    simp only []
    ring

theorem volumeTraceAux_get_cum_succ (drows : List DelRow) (rows : List ObsRow) :
    ∀ (c : ℤ) (i : ℕ) (e e' : MonthEntry),
      (volumeTraceAux false drows c rows).get? i = some e →
      (volumeTraceAux false drows c rows).get? (i + 1) = some e' →
      e'.cum = e.cum + e'.net := by
  induction rows with
  | nil => intro c i e e' he; simp [volumeTraceAux] at he
  | cons r rs ih =>
    intro c i e e' he he'
    rw [volumeTraceAux_cons] at he he'
    cases i with
    | zero =>
      simp only [List.get?_cons_zero, Option.some.injEq] at he
      simp only [List.get?_cons_succ] at he'
      have h0 := volumeTraceAux_get_cum_zero drows rs
        (c + r.bytes - deletedInMonth r.year r.month drows) e' he'
      subst he
      simpa using h0
    | succ j =>
      simp only [List.get?_cons_succ] at he he'
      exact ih _ j e e' he he'

/-- C1: in the monthly archive-volume series with ingest_only false, every
month's net volume is its gross volume minus the bytes the deletion query
reports for that same calendar month, the cumulative value satisfies
cumulative(M) = cumulative(M-1) + net(M) with cumulative(-1) = 0, and the
emitted cumulative series uses the running total after the same-month
correction. -/
theorem volume_series_net_and_cumulative (drows : List DelRow) (rows : List ObsRow)
    (stride : ℤ) :
    (volumeTrace false drows rows).length = rows.length ∧
    (∀ (i : ℕ) (e : MonthEntry) (r : ObsRow),
      (volumeTrace false drows rows).get? i = some e → rows.get? i = some r →
      e.net = r.bytes - deletedInMonth r.year r.month drows) ∧
    (∀ e : MonthEntry, (volumeTrace false drows rows).get? 0 = some e →
      e.cum = e.net) ∧
    (∀ (i : ℕ) (e e' : MonthEntry),
      (volumeTrace false drows rows).get? i = some e →
      (volumeTrace false drows rows).get? (i + 1) = some e' →
      e'.cum = e.cum + e'.net) ∧
    doPlotSeries false true stride drows rows =
      ((volumeTrace false drows rows).filter
        (fun e => decide (e.month % stride = 0))).map
          (fun e => ((e.year, e.month), e.cum)) := by
  refine ⟨volumeTraceAux_length false drows 0 rows,
    fun i e r he hr => volumeTraceAux_get_net drows rows 0 i e r he hr,
    fun e he => ?_,
    fun i e e' he he' => volumeTraceAux_get_cum_succ drows rows 0 i e e' he he',
    doPlotSeriesAux_eq_filter stride drows 0 rows⟩
  have h := volumeTraceAux_get_cum_zero drows rows 0 e he
  omega

/-- Witness for C1 on a concrete two-month input with a deletion recorded
in the second month. -/
theorem volume_series_net_and_cumulative_witness :
    (∀ e : MonthEntry,
      (volumeTrace false [⟨2022, 2, 30⟩] [⟨2022, 1, 100⟩, ⟨2022, 2, 50⟩]).get? 1 = some e →
      e.net = 50 - deletedInMonth 2022 2 [⟨2022, 2, 30⟩]) ∧
    (∀ e e' : MonthEntry,
      (volumeTrace false [⟨2022, 2, 30⟩] [⟨2022, 1, 100⟩, ⟨2022, 2, 50⟩]).get? 0 = some e →
      (volumeTrace false [⟨2022, 2, 30⟩] [⟨2022, 1, 100⟩, ⟨2022, 2, 50⟩]).get? 1 = some e' →
      e'.cum = e.cum + e'.net) := by
  have h := volume_series_net_and_cumulative [⟨2022, 2, 30⟩]
    [⟨2022, 1, 100⟩, ⟨2022, 2, 50⟩] 1
  exact ⟨fun e he => h.2.1 1 e ⟨2022, 2, 50⟩ he (by decide),
    fun e e' he he' => h.2.2.2.1 0 e e' he he'⟩

/-! ### From observations to the query result sets (the SQL semantics)

The gross query groups observations by start (year, month) and sums
total_archived_bytes + files_deleted_bytes; the deletion query groups
data-file deletions by the (year, month) of deleted_timestamp and sums
their sizes; both are ordered ascending.  dump_monthly_stats sums
duration per start month. -/

/-- An observation record: start (year, month), project, duration in
hours, archived bytes, bytes of its files later deleted, and the
(year, month) the deletion happened in (meaningful only when
deleted is nonzero). -/
structure Observation where
  year : ℤ
  month : ℤ
  projid : String
  hours : ℚ
  archived : ℤ
  deleted : ℤ
  delYear : ℤ
  delMonth : ℤ
deriving DecidableEq, Repr

/-- Distinct (year, month) keys in ascending order, as GROUP BY 1,2
ORDER BY 1,2 produces them. -/
def monthKeys (ks : List (ℤ × ℤ)) : List (ℤ × ℤ) :=
  List.insertionSort (fun a b => a.1 < b.1 ∨ (a.1 = b.1 ∧ a.2 ≤ b.2)) ks.dedup

/-- Result rows of the gross-ingest query over a set of observations. -/
def grossRows (obs : List Observation) : List ObsRow :=
  (monthKeys (obs.map (fun o => (o.year, o.month)))).map (fun k =>
    ⟨k.1, k.2, ((obs.filter (fun o => decide (o.year = k.1 ∧ o.month = k.2))).map
      (fun o => o.archived + o.deleted)).sum⟩)

/-- Result rows of the deleted-data-by-month query: deletions grouped by
the month the deletion occurred in. -/
def deletedRows (obs : List Observation) : List DelRow :=
  (monthKeys ((obs.filter (fun o => decide (o.deleted ≠ 0))).map
      (fun o => (o.delYear, o.delMonth)))).map (fun k =>
    ⟨k.1, k.2, (((obs.filter (fun o => decide (o.deleted ≠ 0))).filter
      (fun o => decide (o.delYear = k.1 ∧ o.delMonth = k.2))).map
        Observation.deleted).sum⟩)

/-- Hours per start month, as dump_monthly_stats computes them
(SUM(duration)/3600). -/
def monthlyHours (obs : List Observation) (k : ℤ × ℤ) : ℚ :=
  ((obs.filter (fun o => decide (o.year = k.1 ∧ o.month = k.2))).map
    Observation.hours).sum

/-- The concrete scenario: two January observations (100 h, 1 TB and
50 h, 0.5 TB, nothing deleted) and one February observation (0 h, 0
archived, 0.6 TB of its files deleted during February). -/
def obsScenario : List Observation :=
  [⟨2022, 1, "P1", 100, 1000000000000, 0, 0, 0⟩,
   ⟨2022, 1, "P2", 50, 500000000000, 0, 0, 0⟩,
   ⟨2022, 2, "P1", 0, 0, 600000000000, 2022, 2⟩]

/-- C2 counterexample: on the concrete scenario the code computes for
February a net volume of 0 bytes and a cumulative volume of 1.5e12
bytes, not net -0.6 TB with cumulative 0.9 TB: the 0.6 TB deleted in
February is also part of February's gross ingest
(SUM(total_archived_bytes + files_deleted_bytes)), so the same-month
correction cancels it. -/
theorem monthly_scenario_counterexample :
    (volumeTrace false (deletedRows obsScenario) (grossRows obsScenario)).get? 1 =
      some ⟨2022, 2, 0, 1500000000000⟩ ∧
    (volumeTrace false (deletedRows obsScenario) (grossRows obsScenario)).get? 1 ≠
      some ⟨2022, 2, -600000000000, 900000000000⟩ := by
  constructor
  · decide
  · decide

/-- C2 amended: on the concrete scenario the monthly series computation
yields January: 150 hours, net 1.5e12 bytes (1.5 TB), cumulative 1.5 TB;
February: 0 hours, net 0 bytes, cumulative still 1.5 TB (February's
0.6 TB deletion is part of February's gross ingest and is cancelled by
the same-month correction). -/
theorem monthly_scenario_amended :
    monthlyHours obsScenario (2022, 1) = 150 ∧
    monthlyHours obsScenario (2022, 2) = 0 ∧
    grossRows obsScenario = [⟨2022, 1, 1500000000000⟩, ⟨2022, 2, 600000000000⟩] ∧
    deletedRows obsScenario = [⟨2022, 2, 600000000000⟩] ∧
    volumeTrace false (deletedRows obsScenario) (grossRows obsScenario) =
      [⟨2022, 1, 1500000000000, 1500000000000⟩, ⟨2022, 2, 0, 1500000000000⟩] ∧
    doPlotSeries false true 1 (deletedRows obsScenario) (grossRows obsScenario) =
      [((2022, 1), 1500000000000), ((2022, 2), 1500000000000)] ∧
    bytes_to_terabytes (some 1500000000000) = 3 / 2 := by
  refine ⟨by norm_num [monthlyHours, obsScenario], by norm_num [monthlyHours, obsScenario],
    by decide, by decide, by decide, by decide, ?_⟩
  norm_num [bytes_to_terabytes]

/-- C5 counterexample: for a requested range of exactly 186 days the code
picks a stride of 1 month, while the claim says at least 186 days gives
a stride of 3 months. -/
theorem stride_at_186_counterexample :
    stride_months 186 = 1 ∧ (186 : ℤ) ≥ 186 ∧ (1 : ℤ) ≠ 3 := by
  decide

/-- C5 amended: the stride is 3 months exactly when the requested range
is strictly longer than 186 days (at least 187), 1 month otherwise, and
a month is emitted into the x/y series exactly when its month number
modulo the stride is 0. -/
theorem stride_and_emission (days : ℤ) :
    (stride_months days = 3 ↔ days > 186) ∧
    (stride_months days = 1 ↔ days ≤ 186) ∧
    (∀ (io cumu : Bool) (s : ℤ) (drows : List DelRow) (rows : List ObsRow),
      (doPlotSeries io cumu s drows rows).map Prod.fst =
        (rows.filter (fun r => decide (r.month % s = 0))).map
          (fun r => (r.year, r.month))) := by
  refine ⟨?_, ?_, fun io cumu s drows rows => doPlotSeriesAux_keys io cumu s drows rows 0⟩
  · unfold stride_months; split_ifs with h <;> omega
  · unfold stride_months; split_ifs with h <;> omega

/-- Witness for C5: a 187-day range gives stride 3, a 100-day range gives
stride 1, and with stride 3 only months divisible by 3 are emitted. -/
theorem stride_and_emission_witness :
    stride_months 187 = 3 ∧ stride_months 100 = 1 ∧
    (doPlotSeries false true 3 [] [⟨2022, 5, 7⟩, ⟨2022, 6, 8⟩]).map Prod.fst =
      [(2022, 6)] := by
  refine ⟨(stride_and_emission 187).1.mpr (by norm_num),
    (stride_and_emission 100).2.1.mpr (by norm_num), ?_⟩
  rw [(stride_and_emission 0).2.2 false true 3 [] [⟨2022, 5, 7⟩, ⟨2022, 6, 8⟩]]
  decide

/-- C7: the duty cycle lies in [0, 1] whenever 0 <= hours <= available
hours, is exactly 0 whenever available hours is non-positive, and for
every valid (year, month) the available hours fed to it equal the number
of days in that calendar month times 24. -/
theorem duty_cycle_bounds_and_available_hours :
    (∀ hours avail : ℚ, 0 ≤ hours → hours ≤ avail →
      0 ≤ get_duty_cycle hours avail ∧ get_duty_cycle hours avail ≤ 1) ∧
    (∀ hours avail : ℚ, avail ≤ 0 → get_duty_cycle hours avail = 0) ∧
    (∀ y m : ℕ, 1 ≤ y → 1 ≤ m → m ≤ 12 →
      get_available_hours y m = (daysInMonth y m : ℚ) * 24) := by
  refine ⟨fun hours avail h0 h1 => ?_, fun hours avail h => ?_,
    get_available_hours_eq⟩
  · unfold get_duty_cycle
    split_ifs with hpos
    · exact ⟨div_nonneg h0 hpos.le, (div_le_one hpos).mpr h1⟩
    · norm_num
  · unfold get_duty_cycle
    split_ifs with hpos
    · exact absurd hpos (not_lt.mpr h)
    · rfl

/-- Witness for C7: a concrete in-range duty cycle, the defensive zero
case, and February 2024 (a leap year) giving 29 * 24 = 696 available
hours. -/
theorem duty_cycle_bounds_witness :
    (0 ≤ get_duty_cycle 100 744 ∧ get_duty_cycle 100 744 ≤ 1) ∧
    get_duty_cycle 5 0 = 0 ∧
    get_available_hours 2024 2 = 696 := by
  refine ⟨duty_cycle_bounds_and_available_hours.1 100 744 (by norm_num) (by norm_num),
    duty_cycle_bounds_and_available_hours.2.1 5 0 le_rfl, ?_⟩
  rw [duty_cycle_bounds_and_available_hours.2.2 2024 2 (by norm_num) (by norm_num)
    (by norm_num)]
  norm_num [daysInMonth, isLeap]

/-- C8: both conversions are exact decimal divisions (by 10^12 and 10^15)
and both map None to 0.0. -/
theorem conversions_decimal :
    (∀ x : ℚ, bytes_to_terabytes (some x) = x / 10 ^ 12) ∧
    (∀ x : ℚ, bytes_to_petabytes (some x) = x / 10 ^ 15) ∧
    bytes_to_terabytes none = 0 ∧ bytes_to_petabytes none = 0 := by
  refine ⟨fun x => ?_, fun x => ?_, rfl, rfl⟩ <;>
    norm_num [bytes_to_terabytes, bytes_to_petabytes]

/-! ### Per-bucket inventory call (stats.py: run_mc_du)

run_mc_du shells out to `mc du <profile>/<bucket> --json` with
check=True (a non-zero exit raises), parses the stdout as JSON (a parse
failure raises), and reads the "size" key (a missing key raises).  The
"status" field of the parsed output is never inspected. -/

/-- Structured output of one `mc du --json` call; in each field, none
models a missing key (for size, also a value int() cannot convert). -/
structure McOutput where
  size : Option ℤ
  objects : Option ℤ
  status : Option String
deriving DecidableEq, Repr

/-- Embedding of `run_mc_du`, over the subprocess exit state and the
JSON-parse result of its stdout. -/
def run_mc_du (exitSuccess : Bool) (parsed : Option McOutput) : Except String ℤ :=
  if exitSuccess = false then Except.error "subprocess.CalledProcessError"
  else
    match parsed with
    | none => Except.error "json.JSONDecodeError"
    | some out =>
      match out.size with
      | none => Except.error "KeyError: size"
      | some s => Except.ok s

/-- C4 counterexample: a backend reply whose structured result carries a
non-success status but a zero exit code and a parseable size is returned
as that size; run_mc_du never inspects the status field, so it does not
abort on a non-success status. -/
theorem run_mc_du_status_counterexample :
    run_mc_du true (some ⟨some 0, some 0, some "failure"⟩) = Except.ok 0 ∧
    (some "failure" : Option String) ≠ some "success" :=
  ⟨rfl, by decide⟩

/-- C4 amended: run_mc_du aborts exactly when the subprocess exits with
failure, the output cannot be parsed as JSON, or the parsed output has
no usable size field; when the exit code is zero and a size is present
it returns that size regardless of the status field. -/
theorem run_mc_du_amended :
    (∀ p : Option McOutput, run_mc_du false p = Except.error "subprocess.CalledProcessError") ∧
    run_mc_du true none = Except.error "json.JSONDecodeError" ∧
    (∀ out : McOutput, out.size = none →
      run_mc_du true (some out) = Except.error "KeyError: size") ∧
    (∀ (out : McOutput) (s : ℤ), out.size = some s →
      run_mc_du true (some out) = Except.ok s) := by
  refine ⟨fun p => rfl, rfl, fun out h => ?_, fun out s h => ?_⟩ <;>
    simp [run_mc_du, h]

/-! ### Bucket classifier (stats.py: get_banksia_usage)

The bucket loop sends names containing any of the DMF substrings to the
DMF list, otherwise names containing "mwaingest" to the Banksia list,
and logs everything else as skipped; each tier total sums the inventory
sizes of exactly its own list. -/

/-- Python's `needle in haystack` substring test. -/
def strContains (needle hay : String) : Bool :=
  decide (needle.data <:+: hay.data)

/-- The three outcomes of the classifier. -/
inductive BucketClass
  | dmf
  | banksia
  | unclassified
deriving DecidableEq, Repr

/-- Embedding of the if/elif/else chain classifying one bucket name. -/
def classify_bucket (b : String) : BucketClass :=
  if strContains "mwa01fs" b || strContains "mwa02fs" b || strContains "mwa03fs" b
      || strContains "mwa04fs" b || strContains "volt01fs" b then
    BucketClass.dmf
  else if strContains "mwaingest" b then BucketClass.banksia
  else BucketClass.unclassified

/-- Embedding of the bucket loop: DMF buckets, Banksia buckets, and the
skipped (logged) buckets, in input order. -/
def partitionBuckets : List String → List String × List String × List String
  | [] => ([], [], [])
  | b :: rest =>
    let p := partitionBuckets rest
    match classify_bucket b with
    | BucketClass.dmf => (b :: p.1, p.2.1, p.2.2)
    | BucketClass.banksia => (p.1, b :: p.2.1, p.2.2)
    | BucketClass.unclassified => (p.1, p.2.1, b :: p.2.2)

/-- Embedding of get_banksia_usage over an abstract per-bucket inventory
size: the DMF total, the Banksia total, and the skipped list. -/
def get_banksia_usage (buckets : List String) (size : String → ℤ) :
    ℤ × ℤ × List String :=
  let p := partitionBuckets buckets
  ((p.1.map size).sum, (p.2.1.map size).sum, p.2.2)

theorem partitionBuckets_eq_filter (buckets : List String) :
    partitionBuckets buckets =
      (buckets.filter (fun b => decide (classify_bucket b = BucketClass.dmf)),
       buckets.filter (fun b => decide (classify_bucket b = BucketClass.banksia)),
       buckets.filter (fun b => decide (classify_bucket b = BucketClass.unclassified))) := by
  induction buckets with
  | nil => rfl
  | cons b rest ih =>
    cases h : classify_bucket b <;>
      simp [partitionBuckets, h, ih, List.filter_cons]

/-- C9: "mwa01fs" classifies to the DMF tier, "mwaingest-2" to the
Banksia tier and "random-bucket" to no tier; each tier total sums the
sizes of exactly its own buckets, every unclassified bucket appears in
the skipped log and contributes to neither total. -/
theorem bucket_classification :
    classify_bucket "mwa01fs" = BucketClass.dmf ∧
    classify_bucket "mwaingest-2" = BucketClass.banksia ∧
    classify_bucket "random-bucket" = BucketClass.unclassified ∧
    (∀ (buckets : List String) (size : String → ℤ),
      (get_banksia_usage buckets size).1 =
        ((buckets.filter (fun b => decide (classify_bucket b = BucketClass.dmf))).map size).sum ∧
      (get_banksia_usage buckets size).2.1 =
        ((buckets.filter (fun b => decide (classify_bucket b = BucketClass.banksia))).map size).sum ∧
      (get_banksia_usage buckets size).2.2 =
        buckets.filter (fun b => decide (classify_bucket b = BucketClass.unclassified))) ∧
    (∀ size : String → ℤ,
      get_banksia_usage ["mwa01fs", "mwaingest-2", "random-bucket"] size =
        (size "mwa01fs", size "mwaingest-2", ["random-bucket"])) := by
  have h1 : classify_bucket "mwa01fs" = BucketClass.dmf := by decide
  have h2 : classify_bucket "mwaingest-2" = BucketClass.banksia := by decide
  have h3 : classify_bucket "random-bucket" = BucketClass.unclassified := by decide
  refine ⟨h1, h2, h3, fun buckets size => ?_, fun size => ?_⟩
  · simp [get_banksia_usage, partitionBuckets_eq_filter]
  · simp [get_banksia_usage, partitionBuckets, h1, h2, h3]

/-! ### Location summary (src/stats.py: get_location_summary_bytes)

acacia_mwaingest, acacia_mwa and banksia are initialised to 0 before the
row loop, but dmf is only ever assigned inside the "DMF" branch; the
state therefore carries an Option for dmf, and returning with dmf still
unassigned is Python's UnboundLocalError.  An unknown label or a row
count other than 3 or 4 calls exit(-1). -/

/-- One iteration of the row loop over the location-summary result set.
The state is (dmf?, acacia_mwaingest, acacia_mwa, banksia). -/
def locStep (st : Option ℤ × ℤ × ℤ × ℤ) (row : String × ℤ) :
    Except String (Option ℤ × ℤ × ℤ × ℤ) :=
  if row.1 = "DMF" then Except.ok (some row.2, st.2.1, st.2.2.1, st.2.2.2)
  else if row.1 = "Acacia_mwaingest" then Except.ok (st.1, row.2, st.2.2.1, st.2.2.2)
  else if row.1 = "Acacia_mwa" then Except.ok (st.1, st.2.1, row.2, st.2.2.2)
  else if row.1 = "Banksia" then Except.ok (st.1, st.2.1, st.2.2.1, row.2)
  else Except.error "Unexpected value!"

/-- Embedding of get_location_summary_bytes over the query's result rows. -/
def get_location_summary_bytes (results : List (String × ℤ)) :
    Except String (ℤ × ℤ × ℤ × ℤ) :=
  if results.length = 3 ∨ results.length = 4 then
    match results.foldlM locStep (none, 0, 0, 0) with
    | Except.error e => Except.error e
    | Except.ok st =>
      match st.1 with
      | none => Except.error "UnboundLocalError: dmf"
      | some d => Except.ok (d, st.2.1, st.2.2.1, st.2.2.2)
  else Except.error "Error wrong number of rows!"

theorem locFold_ok (results : List (String × ℤ)) :
    ∀ st0 : Option ℤ × ℤ × ℤ × ℤ,
      (∀ r ∈ results, r.1 = "DMF" ∨ r.1 = "Acacia_mwaingest" ∨
        r.1 = "Acacia_mwa" ∨ r.1 = "Banksia") →
      ∃ st, results.foldlM locStep st0 = Except.ok st ∧
        (st.1 = none ↔ (st0.1 = none ∧ "DMF" ∉ results.map Prod.fst)) ∧
        ("Acacia_mwaingest" ∉ results.map Prod.fst → st.2.1 = st0.2.1) ∧
        ("Acacia_mwa" ∉ results.map Prod.fst → st.2.2.1 = st0.2.2.1) ∧
        ("Banksia" ∉ results.map Prod.fst → st.2.2.2 = st0.2.2.2) := by
  induction results with
  | nil =>
    intro st0 _
    exact ⟨st0, rfl, by simp, fun _ => rfl, fun _ => rfl, fun _ => rfl⟩
  | cons r rest ih =>
    intro st0 hknown
    have hr := hknown r (List.mem_cons_self r rest)
    have hrest : ∀ q ∈ rest, q.1 = "DMF" ∨ q.1 = "Acacia_mwaingest" ∨
        q.1 = "Acacia_mwa" ∨ q.1 = "Banksia" :=
      fun q hq => hknown q (List.mem_cons_of_mem r hq)
    rcases hr with h | h | h | h
    · obtain ⟨st, hf, hiff, h1, h2, h3⟩ :=
        ih (some r.2, st0.2.1, st0.2.2.1, st0.2.2.2) hrest
      refine ⟨st, ?_, ?_, ?_, ?_, ?_⟩
      · rw [List.foldlM_cons]
        have hstep : locStep st0 r = Except.ok (some r.2, st0.2.1, st0.2.2.1, st0.2.2.2) := by
          simp [locStep, h]
        rw [hstep]
        exact hf
      · simp only [List.map_cons, List.mem_cons, hiff, h]
        simp
      · intro hmem
        simp only [List.map_cons, List.mem_cons, not_or] at hmem
        exact h1 hmem.2
      · intro hmem
        simp only [List.map_cons, List.mem_cons, not_or] at hmem
        exact h2 hmem.2
      · intro hmem
        simp only [List.map_cons, List.mem_cons, not_or] at hmem
        exact h3 hmem.2
    · obtain ⟨st, hf, hiff, h1, h2, h3⟩ :=
        ih (st0.1, r.2, st0.2.2.1, st0.2.2.2) hrest
      refine ⟨st, ?_, ?_, ?_, ?_, ?_⟩
      · rw [List.foldlM_cons]
        have hstep : locStep st0 r = Except.ok (st0.1, r.2, st0.2.2.1, st0.2.2.2) := by
          simp [locStep, h]
        rw [hstep]
        exact hf
      · simp only [List.map_cons, List.mem_cons, hiff, h]
        constructor
        · rintro ⟨ha, hb⟩
          exact ⟨ha, by simp [h, hb]⟩
        · rintro ⟨ha, hb⟩
          simp only [not_or] at hb
          exact ⟨ha, hb.2⟩
      · intro hmem
        simp only [List.map_cons, List.mem_cons, not_or, h] at hmem
        exact absurd trivial hmem.1
      · intro hmem
        simp only [List.map_cons, List.mem_cons, not_or] at hmem
        exact h2 hmem.2
      · intro hmem
        simp only [List.map_cons, List.mem_cons, not_or] at hmem
        exact h3 hmem.2
    · obtain ⟨st, hf, hiff, h1, h2, h3⟩ :=
        ih (st0.1, st0.2.1, r.2, st0.2.2.2) hrest
      refine ⟨st, ?_, ?_, ?_, ?_, ?_⟩
      · rw [List.foldlM_cons]
        have hstep : locStep st0 r = Except.ok (st0.1, st0.2.1, r.2, st0.2.2.2) := by
          simp [locStep, h]
        rw [hstep]
        exact hf
      · simp only [List.map_cons, List.mem_cons, hiff, h]
        constructor
        · rintro ⟨ha, hb⟩
          exact ⟨ha, by simp [h, hb]⟩
        · rintro ⟨ha, hb⟩
          simp only [not_or] at hb
          exact ⟨ha, hb.2⟩
      · intro hmem
        simp only [List.map_cons, List.mem_cons, not_or] at hmem
        exact h1 hmem.2
      · intro hmem
        simp only [List.map_cons, List.mem_cons, not_or, h] at hmem
        exact absurd trivial hmem.1
      · intro hmem
        simp only [List.map_cons, List.mem_cons, not_or] at hmem
        exact h3 hmem.2
    · obtain ⟨st, hf, hiff, h1, h2, h3⟩ :=
        ih (st0.1, st0.2.1, st0.2.2.1, r.2) hrest
      refine ⟨st, ?_, ?_, ?_, ?_, ?_⟩
      · rw [List.foldlM_cons]
        have hstep : locStep st0 r = Except.ok (st0.1, st0.2.1, st0.2.2.1, r.2) := by
          simp [locStep, h]
        rw [hstep]
        exact hf
      · simp only [List.map_cons, List.mem_cons, hiff, h]
        constructor
        · rintro ⟨ha, hb⟩
          exact ⟨ha, by simp [h, hb]⟩
        · rintro ⟨ha, hb⟩
          simp only [not_or] at hb
          exact ⟨ha, hb.2⟩
      · intro hmem
        simp only [List.map_cons, List.mem_cons, not_or] at hmem
        exact h1 hmem.2
      · intro hmem
        simp only [List.map_cons, List.mem_cons, not_or] at hmem
        exact h2 hmem.2
      · intro hmem
        simp only [List.map_cons, List.mem_cons, not_or, h] at hmem
        exact absurd trivial hmem.1

/-- C10: on a location-summary result set of 3 or 4 rows with known
labels, a missing Acacia_mwaingest, Acacia_mwa or Banksia row yields 0
for that tier, but a result set with no DMF row makes the function fail
with an unbound local variable instead of returning 0 for DMF. -/
theorem location_summary_defaulting (results : List (String × ℤ))
    (hlen : results.length = 3 ∨ results.length = 4)
    (hknown : ∀ r ∈ results, r.1 = "DMF" ∨ r.1 = "Acacia_mwaingest" ∨
      r.1 = "Acacia_mwa" ∨ r.1 = "Banksia") :
    ("DMF" ∉ results.map Prod.fst →
      get_location_summary_bytes results = Except.error "UnboundLocalError: dmf") ∧
    ("DMF" ∈ results.map Prod.fst →
      ∃ v : ℤ × ℤ × ℤ × ℤ, get_location_summary_bytes results = Except.ok v ∧
        ("Acacia_mwaingest" ∉ results.map Prod.fst → v.2.1 = 0) ∧
        ("Acacia_mwa" ∉ results.map Prod.fst → v.2.2.1 = 0) ∧
        ("Banksia" ∉ results.map Prod.fst → v.2.2.2 = 0)) := by
  obtain ⟨st, hfold, hnone, hami, hamwa, hbank⟩ :=
    locFold_ok results (none, 0, 0, 0) hknown
  unfold get_location_summary_bytes
  rw [if_pos hlen, hfold]
  constructor
  · intro habs
    have h0 : st.1 = none := hnone.mpr ⟨rfl, habs⟩
    simp [h0]
  · intro hmem
    have hne : st.1 ≠ none := fun h => (hnone.mp h).2 hmem
    rcases hst : st.1 with _ | d
    · exact absurd hst hne
    · exact ⟨(d, st.2.1, st.2.2.1, st.2.2.2), by simp [hst],
        fun h => hami h, fun h => hamwa h, fun h => hbank h⟩

/-- Witness for C10: a 3-row result set without a DMF row fails, while a
3-row result set without an Acacia_mwaingest row returns 0 for that
tier. -/
theorem location_summary_defaulting_witness :
    get_location_summary_bytes [("Acacia_mwaingest", 5), ("Acacia_mwa", 6), ("Banksia", 7)] =
      Except.error "UnboundLocalError: dmf" ∧
    get_location_summary_bytes [("DMF", 1), ("Acacia_mwa", 2), ("Banksia", 3)] =
      Except.ok (1, 0, 2, 3) := by
  refine ⟨(location_summary_defaulting _ (by decide) (by decide)).1 (by decide), ?_⟩
  rfl

/-! ### CSV stats dump (stats.py: dump_stats)

The row loop guards the derived columns (hours, terabytes) and the
running totals against None, but the writerow call converts the raw
fields with int() unconditionally; int(None) raises TypeError and the
loop aborts. -/

/-- A result row of the per-day/project/configuration aggregate query. -/
structure StatsRow where
  reportingDate : String
  projectid : String
  config : String
  totalTimeSecs : Option ℤ
  totalArchivedBytes : Option ℤ
  deletedBytes : Option ℤ
deriving DecidableEq, Repr

/-- A CSV line as dump_stats writes it. -/
structure CsvRec where
  date : String
  projid : String
  config : String
  timeSecs : ℤ
  archivedBytes : ℤ
  deletedBytes : ℤ
  hours : ℚ
  terabytes : ℚ
deriving DecidableEq, Repr

/-- Python's int() applied to a value that may be None. -/
def pyInt : Option ℤ → Except String ℤ
  | none => Except.error "TypeError: int() argument must not be None"
  | some v => Except.ok v

/-- Embedding of one iteration of the dump_stats row loop.  The
accumulator is (total_bytes, deleted_bytes, total_secs); the None guards
feed the derived columns and totals, then writerow applies int() to the
three raw fields. -/
def dump_stats_row (acc : ℚ × ℚ × ℚ) (row : StatsRow) :
    Except String ((ℚ × ℚ × ℚ) × CsvRec) :=
  let totalSecs := match row.totalTimeSecs with
    | some s => acc.2.2 + (s : ℚ)
    | none => acc.2.2
  let hours : ℚ := match row.totalTimeSecs with
    | some s => (s : ℚ) / 3600
    | none => 0
  let totalBytes := match row.totalArchivedBytes with
    | some b => acc.1 + (b : ℚ)
    | none => acc.1
  let terabytes : ℚ := match row.totalArchivedBytes with
    | some b => bytes_to_terabytes (some (b : ℚ))
    | none => 0
  let deletedB := match row.deletedBytes with
    | some d => acc.2.1 + (d : ℚ)
    | none => acc.2.1
  match pyInt row.totalTimeSecs with
  | Except.error e => Except.error e
  | Except.ok t =>
    match pyInt row.totalArchivedBytes with
    | Except.error e => Except.error e
    | Except.ok a =>
      match pyInt row.deletedBytes with
      | Except.error e => Except.error e
      | Except.ok d =>
        Except.ok ((totalBytes, deletedB, totalSecs),
          ⟨row.reportingDate, row.projectid, row.config, t, a, d, hours, terabytes⟩)

/-- Embedding of the dump_stats row loop: the CSV lines written and the
final totals, or the exception that aborted the loop. -/
def dump_stats : (ℚ × ℚ × ℚ) → List StatsRow → Except String (List CsvRec × (ℚ × ℚ × ℚ))
  | acc, [] => Except.ok ([], acc)
  | acc, row :: rest =>
    match dump_stats_row acc row with
    | Except.error e => Except.error e
    | Except.ok (acc2, line) =>
      match dump_stats acc2 rest with
      | Except.error e => Except.error e
      | Except.ok (lines, accF) => Except.ok (line :: lines, accF)

/-- C3 (the code contradicts the claim): a None numeric field does reach
the None guards, but the unconditional int() conversions in the writerow
call then raise TypeError, so the row is not written and dump_stats does
not complete; a fully populated row is processed normally. -/
theorem dump_stats_none_aborts :
    dump_stats (0, 0, 0)
      [⟨"2014-05-08", "G0009", "Phase I", some 296, some 120729, some 0⟩,
       ⟨"2014-05-09", "G0010", "Phase I", none, some 500, some 0⟩] =
      Except.error "TypeError: int() argument must not be None" ∧
    dump_stats (0, 0, 0)
      [⟨"2014-05-08", "G0009", "Phase I", some 296, some 120729, some 0⟩] =
      Except.ok ([⟨"2014-05-08", "G0009", "Phase I", 296, 120729, 0,
        296 / 3600, 120729 / 10 ^ 12⟩], (120729, 0, 296)) := by
  constructor
  · rfl
  · norm_num [dump_stats, dump_stats_row, pyInt, bytes_to_terabytes]

/-! ### Science-theme categorisation (volume_per_sci_plots.py)

The script reads (id, description, volume) rows sorted descending by
volume, holds a static dictionary from project description to science
category, and then accumulates `cat_totals[cats[key]] += vols[i]` while
enumerating the dictionary keys: the i-th dictionary key is paired with
the i-th largest project volume positionally, the description of
project i is never consulted, and vols[i] raises IndexError when there
are fewer projects than dictionary entries. -/

/-- The seven science categories, in index order. -/
def cat_lookup : List String :=
  ["EoR", "SHI", "GEG", "Transients", "Pulsars and FT", "Calibration", "Misc"]

/-- The static description-to-category dictionary, in insertion order
(the one duplicated key of the source dictionary appears once, at its
first position, as in a Python dict literal). -/
def cats : List (String × ℕ) :=
  [("Sun Drifts", 1),
   ("GLEAM", 2),
   ("FRBs with the MWA", 4),
   ("Shadowing Parkes FRB observations", 4),
   ("Solar Observations", 1),
   ("EoR", 0),
   ("Calibration", 5),
   ("MWA pulsar survey", 4),
   ("Low-freq investigations of Parkes pta MSP", 4),
   ("Unspecified Director\x27s time", 6),
   ("Global EoR with the moon", 0),
   ("Voltage capture testing", 4),
   ("IPS survey", 3),
   ("Synchrotron Cosmic Web", 2),
   ("MIDAS", 2),
   ("HIghZ: A search for HI absorption in high-redshift radio galaxies", 2),
   ("IPS", 3),
   ("MWA targeted campaign of nearby, flaring M dwarf stars", 2),
   ("AAVS0.5 tests", 6),
   ("MAGE­‐X: A Deep Survey of the Magellanic System", 2),
   ("EoR SKA Fields", 0),
   ("The MWA long-term radio sky monitor", 3),
   ("Cosmic web observation", 2),
   ("Detecting Molecular Lines with the MWA", 2),
   ("MWA KAT-7 clusters", 2),
   ("Intermediate dispersion pulsar scattering", 4),
   ("MWA diffuse cluster emission", 2),
   ("Follow up observations of UV Ceti", 3),
   ("Default", 6),
   ("FAST pulsar candidate", 4),
   ("Orbital dynamics of PSR J1145-6545", 4),
   ("Dispersion variation in J2241-5236", 4),
   ("Proxima Centauri", 2),
   ("Space Situational Awareness (VCS)", 4),
   ("Radio pules from the Geminga Pulsar", 4),
   ("Instrument Verification Program", 6),
   ("Monitoring the Galaxy", 3),
   ("RRLs in GC and NGC6334", 2),
   ("IPS observations for SKA calibration analysis", 3),
   ("Nearby Low-Luminosity QSOs", 2),
   ("Searching for pulsars in the image domain: pilot study", 3)]

/-- The accumulation loop as the code performs it: enumerate the
dictionary keys with index i and add vols[i] to the key's category;
vols[i] out of range is Python's IndexError. -/
def catTotalsAux (vols : List ℚ) : ℕ → List (String × ℕ) → List ℚ → Except String (List ℚ)
  | _, [], acc => Except.ok acc
  | i, k :: rest, acc =>
    match vols.get? i with
    | none => Except.error "IndexError"
    | some v => catTotalsAux vols (i + 1) rest (acc.set k.2 (acc.getD k.2 0 + v))

/-- Embedding of cat_totals as computed by the code, from the
descending-sorted volume column. -/
def cat_totals (vols : List ℚ) : Except String (List ℚ) :=
  catTotalsAux vols 0 cats (List.replicate cat_lookup.length 0)

/-- The category of a project description in the static table. -/
def lookup_cat (desc : String) : Option ℕ :=
  (cats.find? (fun p => decide (p.1 = desc))).map Prod.snd

/-- The category totals the claim describes: each category sums the
volumes of exactly the projects whose description maps to it, and
projects without a table entry contribute to no category. -/
def cat_totals_spec (projects : List (String × ℚ)) : List ℚ :=
  (List.range cat_lookup.length).map (fun c =>
    ((projects.filter (fun p => decide (lookup_cat p.1 = some c))).map Prod.snd).sum)

/-- A project list (descending by volume) whose descriptions all appear
in the table but in an order differing from the dictionary's key order:
the largest project is GLEAM (10 TB), then Sun Drifts (5 TB), then one
zero-volume project per remaining dictionary key. -/
def projScenario : List (String × ℚ) :=
  ("GLEAM", 10) :: ("Sun Drifts", 5) :: (cats.drop 2).map (fun p => (p.1, 0))

theorem sum_filter_map_zero (l : List (String × ℕ)) (pred : String × ℚ → Bool) :
    (((l.map (fun p => (p.1, (0 : ℚ)))).filter pred).map Prod.snd).sum = 0 := by
  induction l with
  | nil => rfl
  | cons a t ih => by_cases h : pred (a.1, 0) <;> simp [List.filter_cons, h, ih]

theorem sum_filter_drop_map_zero (l : List (String × ℕ)) (n : ℕ)
    (pred : String × ℚ → Bool) :
    ((((l.map (fun p => (p.1, (0 : ℚ)))).drop n).filter pred).map Prod.snd).sum = 0 := by
  rw [← List.map_drop]
  exact sum_filter_map_zero (l.drop n) pred

set_option maxRecDepth 100000 in
set_option maxHeartbeats 4000000 in
/-- C6 (the code contradicts the claim): on projScenario the code credits
10 TB to SHI (the category of the first dictionary key, "Sun Drifts")
and 5 TB to GEG, while mapping each description through the table gives
5 TB to SHI and 10 TB to GEG; and with fewer projects than dictionary
entries the loop raises IndexError instead of computing totals. -/
theorem cat_totals_positional_bug :
    cat_totals (projScenario.map Prod.snd) = Except.ok [0, 10, 5, 0, 0, 0, 0] ∧
    cat_totals_spec projScenario = [0, 5, 10, 0, 0, 0, 0] ∧
    Except.ok (cat_totals_spec projScenario) ≠ cat_totals (projScenario.map Prod.snd) ∧
    cat_totals [10, 5] = Except.error "IndexError" := by
  have h1 : cat_totals (projScenario.map Prod.snd) = Except.ok [0, 10, 5, 0, 0, 0, 0] := by
    norm_num [cat_totals, catTotalsAux, cats, cat_lookup, projScenario, List.set, List.getD]
  have hA : lookup_cat "GLEAM" = some 2 := by decide
  have hB : lookup_cat "Sun Drifts" = some 1 := by decide
  have hr : List.range cat_lookup.length = [0, 1, 2, 3, 4, 5, 6] := by decide
  have h2 : cat_totals_spec projScenario = [0, 5, 10, 0, 0, 0, 0] := by
    simp [cat_totals_spec, hr, projScenario, List.filter_cons, hA, hB,
      sum_filter_map_zero, sum_filter_drop_map_zero]
  refine ⟨h1, h2, ?_, by rfl⟩
  rw [h1, h2]
  intro h
  have := Except.ok.inj h
  simp at this

end ArchiveStats
